import Mathlib

set_option autoImplicit false

/-!
Verification of the session-authenticated browser-automation workers
(`linkedin-worker/linkedin_automation_api.py`, `linkedin-worker/app.py`,
`twitter-worker/twitter_automation_api.py`) against their design document.

The Playwright page surface is modelled as a snapshot: a page is an ordered
list of elements; `wait_for_selector` (whose `state` option defaults to
`"visible"`) yields the first matching element that is currently visible,
while `query_selector` yields the first match regardless of visibility.
Functions that click a control and then inspect the resulting page state take
a second page argument for the post-click snapshot.  Wall-clock jitter
(`human_like_delay`, `slow_mo`) has no observable effect in this model and is
dropped; every other branch of the Python source is translated one-to-one.
-/

/-- A DOM element as the automation sees it: its tag, the concrete selector
strings that match it, its visible text, its aria-label, its href attribute,
and whether it is currently visible.  Selector semantics are abstracted: apart
from the structural queries modelled explicitly (`all buttons`,
`aria-label contains`), each element simply carries the list of selector
strings that match it. -/
structure Element where
  tag : String := "button"
  sels : List String := []
  text : String := ""
  aria : String := ""
  href : String := ""
  visible : Bool := true
  deriving Repr, DecidableEq

/-- A page is the ordered list of elements the selector engine can see. -/
abbrev Page := List Element

/-- Does the character list start with `pat`? -/
def leadsWith : List Char → List Char → Bool
  | _, [] => true
  | [], _ :: _ => false
  | a :: l, b :: m => a == b && leadsWith l m

/-- Does `pat` occur as a contiguous run inside the character list? -/
def hasSub (pat : List Char) : List Char → Bool
  | [] => leadsWith [] pat
  | a :: t => leadsWith (a :: t) pat || hasSub pat t

/-- Decidable substring test mirroring the Python `pat in s` operator. -/
def containsStr (s pat : String) : Bool := hasSub pat.data s.data

/-- Python `s.startswith(pre)`. -/
def strStarts (s pre : String) : Bool := leadsWith s.data pre.data

/-- Python `s.strip()`. -/
def strTrim (s : String) : String :=
  String.mk (((s.data.dropWhile Char.isWhitespace).reverse.dropWhile
    Char.isWhitespace).reverse)

/-- Does `e` match the concrete selector string `sel`? -/
def matchesSel (e : Element) (sel : String) : Bool := e.sels.contains sel

/-- Playwright `page.query_selector(sel)`: first matching element in page
order, visible or not. -/
def query_selector (p : Page) (sel : String) : Option Element :=
  p.find? (fun e => matchesSel e sel)

/-- Playwright `page.wait_for_selector(sel, timeout)`: the `state` option
defaults to `"visible"`, so the call yields the first matching element that is
currently visible; `none` models the `TimeoutError` every call site catches. -/
def wait_for_selector (p : Page) (sel : String) : Option Element :=
  p.find? (fun e => matchesSel e sel && e.visible)

/-- Playwright `page.query_selector_all(sel)`. -/
def query_selector_all (p : Page) (sel : String) : List Element :=
  p.filter (fun e => matchesSel e sel)

/-- The shape of every `for selector in selectors: try wait_for_selector`
fallback loop in the source: the first selector in the ordered list that has a
currently visible match wins; a `TimeoutError` falls through to the next. -/
def firstMatch (p : Page) : List String → Option Element
  | [] => none
  | sel :: rest =>
    match wait_for_selector p sel with
    | some e => some e
    | none => firstMatch p rest

/-- Observable browser-side effects, recorded in traces so that ordering
properties (validate-before-navigate, save-before-close, replay-before-login)
can be stated. -/
inductive BEvent where
  | setupBrowser
  | loadSession (loggedIn : Bool)
  | login (success : Bool)
  | saveSession
  | navigate (url : String)
  | click (desc : String)
  | observe (sel : String)
  | closePage
  | closeContext
  | closeBrowser
  | stopPlaywright
  deriving Repr, DecidableEq

def isClick : BEvent → Bool
  | BEvent.click _ => true
  | _ => false

def isObserve : BEvent → Bool
  | BEvent.observe _ => true
  | _ => false

/-- The events that follow the last click of a trace (the whole trace when no
click occurred). -/
def afterLastClick (tr : List BEvent) : List BEvent :=
  (tr.reverse.takeWhile (fun e => !isClick e)).reverse

/-- Was some element observed (a successful `wait_for_selector`) after the
last click of the trace? -/
def observedAfterLastClick (tr : List BEvent) : Bool :=
  (afterLastClick tr).any isObserve

namespace Twitter

/-- `_follow_user`: the ordered follow-control selector list. -/
def follow_selectors : List String :=
  ["div[data-testid=\"follow\"]",
   "button[data-testid=\"follow\"]",
   "div[role=\"button\"]:has-text(\"Follow\")",
   "button:has-text(\"Follow\")"]

/-- `_follow_user`: the post-click verification selector. -/
def unfollow_sel : String :=
  "div[data-testid=\"unfollow\"], button[data-testid=\"unfollow\"]"

/-- `TwitterAutomationAPI._follow_user` over the page model.  `p` is the
profile page as loaded; `pc` is the page state after the follow click (used by
the verification wait).  Returns the `(success, message, profile_url)` triple
and the trace of navigation/click/observation events. -/
def follow_user (p pc : Page) (username : String) :
    (Bool × String × Option String) × List BEvent :=
  let purl := "https://twitter.com/" ++ username
  match firstMatch p follow_selectors with
  | none =>
    ((false, "Could not find follow button for @" ++ username, some purl),
      [BEvent.navigate purl])
  | some btn =>
    if containsStr btn.text "Following" || containsStr btn.text "Unfollow" then
      ((true, "Already following @" ++ username, some purl),
        [BEvent.navigate purl])
    else
      match wait_for_selector pc unfollow_sel with
      | some _ =>
        ((true, "Successfully followed @" ++ username, some purl),
          [BEvent.navigate purl, BEvent.click "follow", BEvent.observe unfollow_sel])
      | none =>
        ((false, "Follow action may have failed for @" ++ username, some purl),
          [BEvent.navigate purl, BEvent.click "follow"])

/-- `_like_tweet`: the ordered like-control selector list. -/
def like_selectors : List String :=
  ["div[data-testid=\"like\"]",
   "button[data-testid=\"like\"]",
   "div[role=\"button\"][aria-label*=\"Like\"]"]

/-- `_like_tweet`: the already-liked / post-click verification selector. -/
def unlike_sel : String := "div[data-testid=\"unlike\"]"

/-- `TwitterAutomationAPI._like_tweet` over the page model.  `p` is the tweet
page as loaded; `pc` is the page state after the like click. -/
def like_tweet (p pc : Page) (tweet_url : String) :
    (Bool × String) × List BEvent :=
  match firstMatch p like_selectors with
  | none => ((false, "Could not find like button"), [BEvent.navigate tweet_url])
  | some _ =>
    if (query_selector p unlike_sel).isSome then
      ((true, "Tweet already liked"), [BEvent.navigate tweet_url])
    else
      match wait_for_selector pc unlike_sel with
      | some _ =>
        ((true, "Successfully liked tweet"),
          [BEvent.navigate tweet_url, BEvent.click "like", BEvent.observe unlike_sel])
      | none =>
        ((false, "Like action may have failed"),
          [BEvent.navigate tweet_url, BEvent.click "like"])

end Twitter

namespace LinkedIn

/-- `_add_by_profile_url`: the ordered connect-control selector list. -/
def connect_selectors : List String :=
  ["button:has-text(\"Connect\")",
   "button[aria-label*=\"Connect\"]",
   ".pvs-profile-actions button:has-text(\"Connect\")",
   "div[data-test-icon=\"connect-medium\"] + span",
   ".pv-s-profile-actions button:has-text(\"Connect\")"]

/-- `_add_by_profile_url`: the ordered send-control selector list. -/
def send_selectors : List String :=
  ["button:has-text(\"Send\")",
   "button[aria-label*=\"Send\"]",
   "button.ml1:has-text(\"Send\")",
   "button[data-test-modal-primary-action]"]

/-- The already-connected probe used by both connect flows. -/
def message_sel : String := "button:has-text(\"Message\")"

/-- `LinkedInAutomationAPI._add_by_profile_url` over the page model.  `p` is
the profile page as loaded; `pModal` is the page state after the connect
click, on which the send-control selectors are waited for.  Returns the
`(success, message, profile_url)` triple and the event trace. -/
def add_by_profile_url (p pModal : Page) (profile_url : String) :
    (Bool × String × Option String) × List BEvent :=
  match firstMatch p connect_selectors with
  | some _ =>
    match firstMatch pModal send_selectors with
    | some _ =>
      ((true, "Connection request sent successfully", some profile_url),
        [BEvent.navigate profile_url, BEvent.click "Connect",
         BEvent.observe "send-button", BEvent.click "Send"])
    | none =>
      ((false, "Could not send connection request", some profile_url),
        [BEvent.navigate profile_url, BEvent.click "Connect"])
  | none =>
    if (query_selector p message_sel).isSome then
      ((false, "Already connected to this person", some profile_url),
        [BEvent.navigate profile_url])
    else
      ((false, "Connect button not found - profile may be restricted", some profile_url),
        [BEvent.navigate profile_url])

/-- `_add_by_search`: the ordered search-box selector list. -/
def search_selectors : List String :=
  ["input[placeholder*=\"Search\"]",
   ".search-global-typeahead__input",
   "input[role=\"combobox\"]",
   "#global-nav-search .search-global-typeahead__input"]

/-- `_add_by_search`: the ordered profile-result selector list. -/
def result_selectors : List String :=
  [".entity-result__title-text a",
   ".search-result__title-text a",
   "[data-test-app-aware-link] .entity-result__title-text a",
   ".reusable-search-simple-insight a",
   ".entity-result__content a[href*=\"/in/\"]",
   ".search-result-card__title a",
   "a[href*=\"/in/\"][data-test-app-aware-link]"]

/-- `_add_by_search` Strategy 3: the ordered class-based connect selectors. -/
def s3_selectors : List String :=
  [".artdeco-button:has-text(\"Connect\")",
   "button.artdeco-button:has-text(\"Connect\")",
   ".entity-result button:has-text(\"Connect\")",
   ".search-result button:has-text(\"Connect\")",
   "button[data-test-app-aware-link]:has-text(\"Connect\")",
   "button.artdeco-button--2:has-text(\"Connect\")"]

/-- `_add_by_search` Strategy 4: the ordered profile-page connect selectors. -/
def profile_connect_selectors : List String :=
  ["button:has-text(\"Connect\")",
   "button[aria-label*=\"Connect\"]",
   ".pvs-profile-actions button:has-text(\"Connect\")",
   ".pv-s-profile-actions button:has-text(\"Connect\")"]

/-- `_add_by_search`: the ordered modal-container selector list. -/
def modal_selectors : List String :=
  ["[data-test-modal-container]",
   ".artdeco-modal",
   ".send-invite",
   "[role=\"dialog\"]"]

/-- `_add_by_search`: the ordered send-control selectors inside the modal
(one more entry than the profile-url flow). -/
def send_selectors_modal : List String :=
  ["button:has-text(\"Send\")",
   "button[aria-label*=\"Send\"]",
   "button.ml1:has-text(\"Send\")",
   "button[data-test-modal-primary-action]",
   "button.artdeco-button--primary:has-text(\"Send\")"]

def people_tab_sel : String := "button:has-text(\"People\")"

/-- `_add_by_search` result loop: the first result selector whose
`wait_for_selector` succeeds is re-queried with `query_selector` (which takes
the first match regardless of visibility); a falsy result falls through to the
next selector. -/
def find_first_result (p : Page) : List String → Option Element
  | [] => none
  | sel :: rest =>
    if (wait_for_selector p sel).isSome then
      match query_selector p sel with
      | some e => some e
      | none => find_first_result p rest
    else find_first_result p rest

/-- `_add_by_search` Strategy 1: scan every `button` element in page order and
click the first one whose stripped text contains `Connect` and that is
visible (an invisible match does not break the loop). -/
def find_connect_s1 (p : Page) : Option Element :=
  p.find? (fun e => e.tag == "button" && containsStr (strTrim e.text) "Connect" && e.visible)

/-- `_add_by_search` Strategy 2: `query_selector_all` on
`button[aria-label*="Connect"]` (modelled structurally on the aria attribute),
then the first visible match. -/
def find_connect_s2 (p : Page) : Option Element :=
  (p.filter (fun e => e.tag == "button" && containsStr e.aria "Connect")).find?
    (fun e => e.visible)

/-- `_add_by_search` Strategy 3: for each class-based selector in order, the
first visible element among its matches. -/
def find_connect_s3 (p : Page) : List String → Option Element
  | [] => none
  | sel :: rest =>
    match (query_selector_all p sel).find? (fun e => e.visible) with
    | some e => some e
    | none => find_connect_s3 p rest

/-- `_add_by_search` Strategies 1 to 3 on the search-results page, tried in
order. -/
def find_connect_result_page (p : Page) : Option Element :=
  match find_connect_s1 p with
  | some e => some e
  | none =>
    match find_connect_s2 p with
    | some e => some e
    | none => find_connect_s3 p s3_selectors

/-- `_add_by_search` Strategy 4 element search on the profile page: each
selector is waited for in order and the match is re-checked for visibility
(redundant under the `state="visible"` default, kept for faithfulness). -/
def find_connect_profile (p : Page) : List String → Option Element
  | [] => none
  | sel :: rest =>
    match wait_for_selector p sel with
    | some e => if e.visible then some e else find_connect_profile p rest
    | none => find_connect_profile p rest

/-- `LinkedInAutomationAPI._add_by_search` over the page model.
`currentUrl` is `self.page.url` at entry; `p0` is the page the search box is
looked up on; `pRes` is the search-results page; `pProf` is the profile page
after Strategy 4 clicks the first result link; `pModal` is the page state the
modal handling runs on after a connect click.  URL-encoding of the name
(`urllib.parse.quote`) is modelled as the identity, and the f-string quotes
around the name in the no-results message are dropped. -/
def add_by_search (currentUrl : String) (p0 pRes pProf pModal : Page)
    (name : String) : (Bool × String × Option String) × List BEvent :=
  let ev1 : List BEvent :=
    if containsStr currentUrl "linkedin.com" then []
    else [BEvent.navigate "https://www.linkedin.com/feed/"]
  let ev2 : List BEvent :=
    match firstMatch p0 search_selectors with
    | none =>
      [BEvent.navigate
        ("https://www.linkedin.com/search/results/people/?keywords=" ++ name
          ++ "&origin=GLOBAL_SEARCH_HEADER")]
    | some _ =>
      BEvent.click "search-box" ::
        (match wait_for_selector pRes people_tab_sel with
         | some _ => [BEvent.click "People tab"]
         | none => [])
  match find_first_result pRes result_selectors with
  | none =>
    ((false, "No profile results found for " ++ name, none), ev1 ++ ev2)
  | some fr =>
    let profile_url :=
      if strStarts fr.href "/" then "https://www.linkedin.com" ++ fr.href
      else fr.href
    let clicked : Option (List BEvent) :=
      match find_connect_result_page pRes with
      | some _ => some [BEvent.click "Connect"]
      | none =>
        match find_connect_profile pProf profile_connect_selectors with
        | some _ => some [BEvent.click "profile-link", BEvent.click "Connect"]
        | none => none
    match clicked with
    | some evC =>
      let evs := ev1 ++ ev2 ++ evC
      match firstMatch pModal modal_selectors with
      | some _ =>
        match firstMatch pModal send_selectors_modal with
        | some _ =>
          ((true, "Connection request sent successfully", some profile_url),
            evs ++ [BEvent.observe "modal", BEvent.observe "send-button",
                    BEvent.click "Send"])
        | none =>
          ((false, "Could not find Send button in modal", some profile_url),
            evs ++ [BEvent.observe "modal"])
      | none =>
        ((true, "Connection request sent (no modal needed)", some profile_url),
          evs)
    | none =>
      let evs := ev1 ++ ev2 ++ [BEvent.click "profile-link"]
      if (query_selector pProf message_sel).isSome then
        ((false, "Already connected to this person", some profile_url), evs)
      else
        ((false, "Connect button not found - profile may be restricted",
           some profile_url), evs)

/-! ### Session Store and login flow

A session file is `Option (Option String)`: `none` is a missing file,
`some none` is a file whose content makes `json.load` raise
(`JSONDecodeError`), and `some (some s)` is a file that deserializes to the
snapshot `s`. -/

/-- Environment for `_load_session`: whether `context.add_cookies` succeeds,
the URL and content of the current page, whether the feed navigation succeeds,
and the URL and content of the page after that navigation. -/
structure LoadEnv where
  cookiesOk : Bool := true
  currentUrl : String := ""
  curPage : Page := []
  feedNavOk : Bool := true
  feedUrl : String := ""
  feedPage : Page := []
  deriving Repr

/-- The logged-in indicator selector used on an already-open LinkedIn page. -/
def logged_in_sel : String :=
  ".global-nav__primary-link, .feed-shared-actor__name, [data-test-global-nav-profile]"

/-- The combined login-form-or-feed selector waited for on the feed page. -/
def combo_sel : String :=
  "input[name=\"session_key\"], .feed-shared-actor__name, .global-nav__primary-link, [data-test-global-nav-profile]"

/-- The login-form probe that marks a session as expired. -/
def login_form_sel : String := "input[name=\"session_key\"]"

/-- `_load_session` without its outermost `except` clause: the branches that
can raise out of the body (a `json.load` failure, an `add_cookies` failure)
are `Except.error`; every other failure is absorbed by an inner handler that
sets `is_logged_in` accordingly.  `l0` is `self.is_logged_in` at entry; the
result is its value on return. -/
def load_session_raw (file : Option (Option String)) (env : LoadEnv)
    (l0 : Bool) : Except String Bool :=
  match file with
  | none => Except.ok l0
  | some none => Except.error "JSONDecodeError"
  | some (some _) =>
    if !env.cookiesOk then Except.error "add_cookies failed"
    else if containsStr env.currentUrl "linkedin.com"
        && !containsStr env.currentUrl "login" then
      match wait_for_selector env.curPage logged_in_sel with
      | some _ => Except.ok true
      | none => Except.ok false
    else if !env.feedNavOk then Except.ok false
    else
      match wait_for_selector env.feedPage combo_sel with
      | none => Except.ok false
      | some _ =>
        if (query_selector env.feedPage login_form_sel).isSome then
          Except.ok false
        else if containsStr env.feedUrl "feed"
            || (containsStr env.feedUrl "linkedin.com"
                && !containsStr env.feedUrl "login") then
          Except.ok true
        else Except.ok false

/-- `LinkedInAutomationAPI._load_session` including its outermost `except`
clause, which only logs: both reachable raise points occur before any
assignment to `is_logged_in`, so the handler leaves the entry value in place.
Total by construction — the method never raises to its caller. -/
def load_session (file : Option (Option String)) (env : LoadEnv)
    (l0 : Bool) : Bool :=
  match load_session_raw file env l0 with
  | Except.ok b => b
  | Except.error _ => l0

/-- Outcomes of `LinkedInAutomationAPI._login`: the feed URL is reached in
time; the timeout fallback finds a checkpoint/challenge URL; the timeout
fallback finds the login URL (bad credentials); the timeout fallback finds
neither and assumes success; or the surrounding `except` clause re-raises. -/
inductive CredLogin where
  | reachedFeed
  | checkpointHit
  | badCreds
  | assumed
  | raised
  deriving Repr, DecidableEq

/-- The `is_logged_in` flag `_login` leaves behind (`none` when it raises). -/
def login_result : CredLogin → Option Bool
  | CredLogin.reachedFeed => some true
  | CredLogin.checkpointHit => some false
  | CredLogin.badCreds => some false
  | CredLogin.assumed => some true
  | CredLogin.raised => none

/-- `LinkedInAutomationAPI.initialize` (named `startup` here).  Returns the
resulting `is_logged_in` flag (`none` when `_login` raised and the exception
propagated) together with the event trace.  The guard returns immediately —
with no browser setup, session load, credential login or session save — when
the instance is already logged in and holds a live page; otherwise the browser
is set up, the Session Store is replayed, and credential login (followed
unconditionally by a session save) runs only if the replay did not yield a
logged-in session. -/
def startup (loggedIn0 hasPage : Bool) (file : Option (Option String))
    (env : LoadEnv) (cred : CredLogin) : Option Bool × List BEvent :=
  if loggedIn0 && hasPage then (some loggedIn0, [])
  else
    let b := load_session file env loggedIn0
    let ev0 := [BEvent.setupBrowser, BEvent.loadSession b]
    if b then (some true, ev0)
    else
      match login_result cred with
      | none => (none, ev0 ++ [BEvent.login false])
      | some r => (some r, ev0 ++ [BEvent.login r, BEvent.saveSession])

/-- `LinkedInAutomationAPI._cleanup_browser`: close the page, the context and
the browser, then stop Playwright, each guarded by presence. -/
def cleanup_browser (hasPage hasContext hasBrowser hasPlaywright : Bool) :
    List BEvent :=
  (if hasPage then [BEvent.closePage] else [])
    ++ (if hasContext then [BEvent.closeContext] else [])
    ++ (if hasBrowser then [BEvent.closeBrowser] else [])
    ++ (if hasPlaywright then [BEvent.stopPlaywright] else [])

/-- `LinkedInAutomationAPI.cleanup`: save the session first (when a context
exists and the instance is logged in), then release the browser resources. -/
def cleanup (hasContext loggedIn : Bool)
    (hasPage hasBrowser hasPlaywright : Bool) : List BEvent :=
  (if hasContext && loggedIn then [BEvent.saveSession] else [])
    ++ cleanup_browser hasPage hasContext hasBrowser hasPlaywright

/-- Python truthiness of an optional environment string (`not self.email`). -/
def truthy : Option String → Bool
  | none => false
  | some s => !(s == "")

/-- `LinkedInAutomationAPI.__init__` over an environment lookup: all browser
fields are set to `None` and the credentials are read before the check, so the
constructor performs no browser event on any path; a falsy email or password
raises `ValueError`. -/
def construct (env : String → Option String) :
    Except String (String × String) × List BEvent :=
  let em := env "LINKEDIN_EMAIL"
  let pw := env "LINKEDIN_PASSWORD"
  if !truthy em || !truthy pw then
    (Except.error "LinkedIn email and password must be set in environment variables", [])
  else
    (Except.ok (em.getD "", pw.getD ""), [])

/-! ### Worker Façade (`linkedin-worker/app.py`) -/

/-- The body of a connection request as the endpoint receives it. -/
structure ConnReq where
  profile_url : Option String := none
  name : Option String := none
  message : Option String := none
  deriving Repr, DecidableEq

/-- An endpoint outcome: an `HTTPException` with a status code, or a
`ConnectionResponse` triple. -/
inductive ApiResp where
  | http (code : Nat) (detail : String)
  | conn (success : Bool) (message : String) (profile_url : Option String)
  deriving Repr, DecidableEq

/-- `LinkedInAutomationAPI.add_connection`: the outer `try/except` of the
action sequence.  `inner` is the outcome of the dispatched coroutine
(`_add_by_profile_url` or `_add_by_search`), `Except.error e` standing for an
unexpected exception with message `e`.  Every branch returns an ordinary
triple — nothing propagates. -/
def add_connection (loggedIn : Bool) (req : ConnReq)
    (inner : Except String (Bool × String × Option String)) :
    Bool × String × Option String :=
  if !loggedIn then (false, "Not logged into LinkedIn", none)
  else if req.profile_url.isSome || req.name.isSome then
    match inner with
    | Except.ok r => r
    | Except.error e => (false, "Error: " ++ e, none)
  else (false, "Either profile_url or name must be provided", none)

/-- `app.py add_connection` endpoint: when the instance does not believe
itself logged in it first runs `initialize` (browser setup, session replay,
credential login); only then is the missing-field validation checked; only
then is the action dispatched. -/
def api_add_connection (loggedIn0 hasPage : Bool)
    (file : Option (Option String)) (env : LoadEnv) (cred : CredLogin)
    (req : ConnReq)
    (inner : Except String (Bool × String × Option String)) :
    ApiResp × List BEvent :=
  let st :=
    if !loggedIn0 then startup loggedIn0 hasPage file env cred
    else (some loggedIn0, [])
  match st with
  | (none, ev) => (ApiResp.http 500 "Failed to initialize", ev)
  | (some li1, ev) =>
    if req.profile_url.isNone && req.name.isNone then
      (ApiResp.http 400 "Either profile_url or name must be provided", ev)
    else
      match add_connection li1 req inner with
      | (ok, m, u) => (ApiResp.conn ok m u, ev)

end LinkedIn

namespace Twitter

/-- `TwitterAutomationAPI._initialize_browser`: a no-op once initialized;
otherwise the session file, when present, is read and `json.load`-ed inside
the same `try` whose `except` clause logs and re-raises — a malformed file
therefore raises to the caller.  Returns the storage state loaded by this
call. -/
def init_browser (isInit : Bool) (file : Option (Option String)) :
    Except String (Option String) :=
  if isInit then Except.ok none
  else
    match file with
    | none => Except.ok none
    | some (some s) => Except.ok (some s)
    | some none => Except.error "JSONDecodeError"

/-- The login-establishment phase of `execute_action` plus `_login`:
`_check_login_status` reports whether the replayed session shows a logged-in
page (`replayOk`); if not, `_login` runs — it returns `False` without
credentials, and on a successful credential login it saves the session before
returning `True`. -/
def ensure_logged_in (replayOk credsPresent loginWorks : Bool) :
    Bool × List BEvent :=
  if replayOk then (true, [BEvent.loadSession true])
  else if !credsPresent then
    (false, [BEvent.loadSession false, BEvent.login false])
  else if loginWorks then
    (true, [BEvent.loadSession false, BEvent.login true, BEvent.saveSession])
  else (false, [BEvent.loadSession false, BEvent.login false])

/-- A Twitter action request. -/
structure TwReq where
  username : String
  action : String
  tweet_url : Option String := none
  message : Option String := none
  deriving Repr, DecidableEq

/-- A `TwitterResponse`. -/
structure TwResp where
  success : Bool
  message : String
  username : String
  action : String
  profile_url : Option String := none
  deriving Repr, DecidableEq

/-- `TwitterAutomationAPI.execute_action`.  The browser is initialized and the
login status established before any per-action field validation; the
dispatched action coroutines are abstracted by their outcomes
(`Except.error e` standing for an unexpected exception with message `e`), and
the outermost `except` clause converts any exception from the body — browser
setup included — into a failure response carrying the exception message. -/
def execute_action (isInit : Bool) (file : Option (Option String))
    (replayOk credsPresent loginWorks : Bool) (req : TwReq)
    (followRes : Except String (Bool × String × Option String))
    (likeRes rtRes replyRes : Except String (Bool × String)) :
    TwResp × List BEvent :=
  let fail := fun (e : String) (ev : List BEvent) =>
    (TwResp.mk false ("Error executing action: " ++ e) req.username req.action none, ev)
  let ev0 : List BEvent := if isInit then [] else [BEvent.setupBrowser]
  match init_browser isInit file with
  | Except.error e => fail e ev0
  | Except.ok _ =>
    match ensure_logged_in replayOk credsPresent loginWorks with
    | (false, ev1) =>
      (TwResp.mk false
        "Failed to log into Twitter. Please check credentials or log in manually."
        req.username req.action none, ev0 ++ ev1)
    | (true, ev1) =>
      let ev := ev0 ++ ev1
      if req.action == "follow" then
        match followRes with
        | Except.ok (ok, m, pu) =>
          (TwResp.mk ok m req.username req.action pu, ev ++ [BEvent.saveSession])
        | Except.error e => fail e ev
      else if req.action == "like" then
        if req.tweet_url.isNone then
          (TwResp.mk false "Tweet URL is required for like action"
            req.username req.action none, ev)
        else
          match likeRes with
          | Except.ok (ok, m) =>
            (TwResp.mk ok m req.username req.action none, ev ++ [BEvent.saveSession])
          | Except.error e => fail e ev
      else if req.action == "retweet" then
        if req.tweet_url.isNone then
          (TwResp.mk false "Tweet URL is required for retweet action"
            req.username req.action none, ev)
        else
          match rtRes with
          | Except.ok (ok, m) =>
            (TwResp.mk ok m req.username req.action none, ev ++ [BEvent.saveSession])
          | Except.error e => fail e ev
      else if req.action == "reply" then
        if req.tweet_url.isNone || req.message.isNone then
          (TwResp.mk false "Tweet URL and message are required for reply action"
            req.username req.action none, ev)
        else
          match replyRes with
          | Except.ok (ok, m) =>
            (TwResp.mk ok m req.username req.action none, ev ++ [BEvent.saveSession])
          | Except.error e => fail e ev
      else
        (TwResp.mk false ("Unknown action: " ++ req.action)
          req.username req.action none, ev)

/-- An endpoint outcome for the dedicated Twitter routes: an `HTTPException`
or a `TwitterResponse`. -/
inductive TwApiResp where
  | http (code : Nat) (detail : String)
  | resp (r : TwResp)
  deriving Repr, DecidableEq

/-- The `/api/like` route: the missing-field check raises `HTTPException 400`
before `execute_action` — and hence before any browser action — runs. -/
def like_route (tweet_url : Option String) (isInit : Bool)
    (file : Option (Option String)) (replayOk credsPresent loginWorks : Bool)
    (likeRes : Except String (Bool × String)) : TwApiResp × List BEvent :=
  match tweet_url with
  | none => (TwApiResp.http 400 "Tweet URL is required", [])
  | some u =>
    let r := execute_action isInit file replayOk credsPresent loginWorks
      (Twitter.TwReq.mk "" "like" (some u) none) (Except.ok (false, "", none))
      likeRes (Except.ok (false, "")) (Except.ok (false, ""))
    (TwApiResp.resp r.1, r.2)

/-- FastAPI `shutdown_event` → `TwitterAutomationAPI.close`: the browser is
closed; no session save occurs on this path. -/
def close (hasBrowser : Bool) : List BEvent :=
  if hasBrowser then [BEvent.closeBrowser] else []

end Twitter

/-! ### Concrete fixture pages used by counterexamples and witnesses -/

/-- A visible Message control (the LinkedIn already-connected marker). -/
def msgBtn : Element := { tag := "button", sels := ["button:has-text(\"Message\")"], text := "Message" }

/-- A follow control whose label already reads `Following`. -/
def followBtnAlready : Element := { tag := "div", sels := ["div[data-testid=\"follow\"]"], text := "Following" }

/-- A fresh follow control, matched only by the last follow selector. -/
def followBtnNew : Element := { tag := "button", sels := ["button:has-text(\"Follow\")"], text := "Follow" }

/-- The unfollow control that appears after a successful follow. -/
def unfollowElem : Element := { tag := "div", sels := ["div[data-testid=\"unfollow\"], button[data-testid=\"unfollow\"]"] }

/-- A like control. -/
def likeBtn : Element := { tag := "div", sels := ["div[data-testid=\"like\"]"] }

/-- The unlike control that appears after a successful like. -/
def unlikeElem : Element := { tag := "div", sels := ["div[data-testid=\"unlike\"]"] }

/-- A follow control that matches the first follow selector but is hidden. -/
def hiddenFollow : Element := { tag := "div", sels := ["div[data-testid=\"follow\"]"], text := "Follow", visible := false }

/-- The global search box. -/
def searchBox : Element := { tag := "input", sels := ["input[placeholder*=\"Search\"]"] }

/-- A search-result profile link with a relative href. -/
def resultLink : Element := { tag := "a", sels := [".entity-result__title-text a"], href := "/in/jdoe" }

/-- A visible search-result Connect button (found by Strategy 1). -/
def connectBtn : Element := { tag := "button", text := "Connect" }

/-! ### Claim theorems -/

/-- C4 counterexample: a session file whose content fails deserialization
makes the Twitter worker raise out of `_initialize_browser` — the `except`
clause logs and re-raises instead of returning a no-session outcome. -/
theorem malformed_session_raises :
    Twitter.init_browser false (some none) = Except.error "JSONDecodeError" := rfl

/-- C4 amended: the LinkedIn `_load_session` fails soft — on a missing file, a
malformed file, or a deserialization-stage failure (`add_cookies` raising) it
returns with the `is_logged_in` flag unchanged (so a not-logged-in worker
stays not logged in) and never raises; the Twitter worker's inlined session
load in `_initialize_browser`, by contrast, re-raises deserialization errors
to its caller. -/
theorem session_load_fail_soft :
    (∀ (env : LinkedIn.LoadEnv) (l0 : Bool), LinkedIn.load_session none env l0 = l0)
    ∧ (∀ (env : LinkedIn.LoadEnv) (l0 : Bool),
        LinkedIn.load_session (some none) env l0 = l0)
    ∧ (∀ (env : LinkedIn.LoadEnv) (sd : String) (l0 : Bool),
        LinkedIn.load_session (some (some sd)) { env with cookiesOk := false } l0 = l0)
    ∧ Twitter.init_browser false (some none) = Except.error "JSONDecodeError" := by
  refine ⟨fun env l0 => rfl, fun env l0 => rfl, fun env sd l0 => rfl, rfl⟩

/-- C5 counterexample: the Twitter shutdown path (`shutdown_event` →
`close`) releases the browser without persisting the session. -/
theorem shutdown_without_save :
    BEvent.closeBrowser ∈ Twitter.close true ∧ BEvent.saveSession ∉ Twitter.close true := by
  decide

/-- C5 amended: the LinkedIn `cleanup` persists the session before any
browser-release step whenever a context exists and the worker is logged in,
but the Twitter shutdown path (`close`) never saves the session — the Twitter
worker instead saves after each executed action and after credential login. -/
theorem save_before_release :
    (∀ hp hb hpw : Bool, LinkedIn.cleanup true true hp hb hpw =
        BEvent.saveSession :: LinkedIn.cleanup_browser hp true hb hpw)
    ∧ (∀ hb : Bool, BEvent.saveSession ∉ Twitter.close hb) := by
  refine ⟨fun hp hb hpw => rfl, fun hb => ?_⟩
  cases hb <;> decide

/-- C8: any unexpected exception raised during the action sequence is caught
and converted into a failure result carrying the exception message — in the
LinkedIn `add_connection` wrapper, in the Twitter `execute_action` wrapper,
and even when the exception comes from browser setup itself (a malformed
session file); nothing propagates, every branch returns an ordinary value. -/
theorem exceptions_become_failures :
    (∀ (e purl : String) (msg : Option String),
      LinkedIn.add_connection true (LinkedIn.ConnReq.mk (some purl) none msg) (Except.error e)
        = (false, "Error: " ++ e, none))
    ∧ (∀ (e u : String) (lR rR pR : Except String (Bool × String)),
      (Twitter.execute_action false none true true true (Twitter.TwReq.mk u "follow" none none)
          (Except.error e) lR rR pR).1
        = Twitter.TwResp.mk false ("Error executing action: " ++ e) u "follow" none)
    ∧ (∀ (u a : String) (fR : Except String (Bool × String × Option String))
        (lR rR pR : Except String (Bool × String)),
      (Twitter.execute_action false (some none) true true true (Twitter.TwReq.mk u a none none)
          fR lR rR pR).1
        = Twitter.TwResp.mk false "Error executing action: JSONDecodeError" u a none) := by
  refine ⟨fun e purl msg => rfl, fun e u lR rR pR => rfl, fun u a fR lR rR pR => rfl⟩

/-- C9: running `initialize` when the instance is already logged in and holds
a live page is a no-op — the early-return guard fires, no browser setup,
session load, credential login or session save occurs (empty event trace), and
the logged-in state is left unchanged. -/
theorem startup_idempotent :
    ∀ (file : Option (Option String)) (env : LinkedIn.LoadEnv)
      (cred : LinkedIn.CredLogin),
      LinkedIn.startup true true file env cred = (some true, []) := by
  intro file env cred; rfl

/-- C10: constructing `LinkedInAutomationAPI` with either credential variable
unset raises `ValueError`; the constructor performs no browser event on any
path (the browser fields are merely set to `None`). -/
theorem construct_requires_credentials :
    ∀ env : String → Option String,
      env "LINKEDIN_EMAIL" = none ∨ env "LINKEDIN_PASSWORD" = none →
      LinkedIn.construct env =
        (Except.error "LinkedIn email and password must be set in environment variables",
          []) := by
  intro env h
  rcases h with h | h <;> simp [LinkedIn.construct, LinkedIn.truthy, h]

/-- Witness for C10 at the empty environment. -/
theorem construct_requires_credentials_witness :
    LinkedIn.construct (fun _ => none) =
      (Except.error "LinkedIn email and password must be set in environment variables",
        []) :=
  construct_requires_credentials (fun _ => none) (Or.inl rfl)

/-- C1 counterexample: a LinkedIn connect request against an already-connected
profile (a `Message` control present, no `Connect` control) returns
`success = False` with the message `Already connected to this person` — not a
success result as the idempotence requirement demands. -/
theorem already_connected_is_failure :
    LinkedIn.add_by_profile_url [msgBtn] [] "https://www.linkedin.com/in/jdoe" =
      ((false, "Already connected to this person", some "https://www.linkedin.com/in/jdoe"),
        [BEvent.navigate "https://www.linkedin.com/in/jdoe"])
    ∧ containsStr
        (LinkedIn.add_by_profile_url [msgBtn] [] "https://www.linkedin.com/in/jdoe").1.2.1
        "Already connected" = true := by
  refine ⟨by decide, by decide⟩

/-- C1 amended: both workers short-circuit without clicking when the target is
already satisfied, but only the Twitter follow action reports success
(`Already following @...`); the LinkedIn connect action reports failure
(`Already connected to this person`).  Neither path performs any click. -/
theorem already_satisfied_short_circuit :
    (∀ (p pc : Page) (u : String) (btn : Element),
      firstMatch p Twitter.follow_selectors = some btn →
      (containsStr btn.text "Following" || containsStr btn.text "Unfollow") = true →
      Twitter.follow_user p pc u =
        ((true, "Already following @" ++ u, some ("https://twitter.com/" ++ u)),
          [BEvent.navigate ("https://twitter.com/" ++ u)]))
    ∧ (∀ (p pm : Page) (u : String),
      firstMatch p LinkedIn.connect_selectors = none →
      (query_selector p LinkedIn.message_sel).isSome = true →
      LinkedIn.add_by_profile_url p pm u =
        ((false, "Already connected to this person", some u), [BEvent.navigate u])) := by
  constructor
  · intro p pc u btn h1 h2
    simp [Twitter.follow_user, h1, h2]
  · intro p pm u h1 h2
    simp [LinkedIn.add_by_profile_url, h1, h2]

/-- Witness for C1 amended, on a page whose follow control reads `Following`
and on a page exposing only a `Message` control. -/
theorem already_satisfied_short_circuit_witness :
    Twitter.follow_user [followBtnAlready] [] "jack" =
      ((true, "Already following @jack", some "https://twitter.com/jack"),
        [BEvent.navigate "https://twitter.com/jack"])
    ∧ LinkedIn.add_by_profile_url [msgBtn] [] "u" =
      ((false, "Already connected to this person", some "u"), [BEvent.navigate "u"]) :=
  ⟨already_satisfied_short_circuit.1 [followBtnAlready] [] "jack" followBtnAlready
      (by decide) (by decide),
    already_satisfied_short_circuit.2 [msgBtn] [] "u" (by decide) (by decide)⟩

/-- C2 counterexample: a LinkedIn add-connection request with neither a
profile URL nor a name does receive the validation failure (HTTP 400), but
only after browser initialization (and here a full credential login and
session save) has been attempted — not before any browser action. -/
theorem validation_after_browser_init :
    (LinkedIn.api_add_connection false false none {} LinkedIn.CredLogin.reachedFeed {}
        (Except.ok (false, "", none))).1
      = LinkedIn.ApiResp.http 400 "Either profile_url or name must be provided"
    ∧ BEvent.setupBrowser ∈
        (LinkedIn.api_add_connection false false none {} LinkedIn.CredLogin.reachedFeed {}
          (Except.ok (false, "", none))).2 := by
  decide

/-- C2 amended: a request missing its required fields always gets a validation
failure and never reaches a target navigation, but the placement differs: the
dedicated Twitter routes reject it before any browser action, while the
LinkedIn add-connection endpoint (on a not-logged-in instance) and Twitter's
`execute_action` perform browser initialization and login establishment first
and validate only afterwards. -/
theorem validation_placement :
    (∀ (tu : Option String) (isInit : Bool) (file : Option (Option String))
      (r c l : Bool) (lR : Except String (Bool × String)),
      tu = none →
      Twitter.like_route tu isInit file r c l lR =
        (Twitter.TwApiResp.http 400 "Tweet URL is required", []))
    ∧ (∀ (file : Option (Option String)) (env : LinkedIn.LoadEnv)
        (inner : Except String (Bool × String × Option String)),
      (LinkedIn.api_add_connection false false file env LinkedIn.CredLogin.reachedFeed {}
          inner).1
        = LinkedIn.ApiResp.http 400 "Either profile_url or name must be provided"
      ∧ (LinkedIn.api_add_connection false false file env LinkedIn.CredLogin.reachedFeed {}
          inner).2.head?
        = some BEvent.setupBrowser)
    ∧ (∀ (u : String) (c l : Bool)
        (fR : Except String (Bool × String × Option String))
        (lR rR pR : Except String (Bool × String)),
      Twitter.execute_action false none true c l (Twitter.TwReq.mk u "like" none none)
          fR lR rR pR =
        (Twitter.TwResp.mk false "Tweet URL is required for like action" u "like" none,
          [BEvent.setupBrowser, BEvent.loadSession true])) := by
  refine ⟨fun tu isInit file r c l lR h => by subst h; rfl, fun file env inner => ?_,
    fun u c l fR lR rR pR => rfl⟩
  cases h : LinkedIn.load_session file env false <;>
    simp [LinkedIn.api_add_connection, LinkedIn.startup, LinkedIn.login_result, h]

/-- Witness for C2 amended at a concrete missing-field request. -/
theorem validation_placement_witness :
    Twitter.like_route none false none true true true (Except.ok (false, "")) =
      (Twitter.TwApiResp.http 400 "Tweet URL is required", []) :=
  validation_placement.1 none false none true true true (Except.ok (false, "")) rfl

/-- An element found only through the aria-label strategy (Strategy 2). -/
def ariaConnectBtn : Element := { tag := "button", aria := "Connect with X", text := "" }

/-- On a page with no visible element, a visibility-requiring wait always
times out. -/
theorem wait_for_selector_none_of_invisible (p : Page) (sel : String)
    (h : ∀ e ∈ p, e.visible = false) : wait_for_selector p sel = none := by
  refine List.find?_eq_none.mpr fun e he => ?_
  simp [h e he]

/-- On a page with no visible element, every ordered-fallback loop returns
NotFound. -/
theorem firstMatch_none_of_invisible (p : Page) (sels : List String)
    (h : ∀ e ∈ p, e.visible = false) : firstMatch p sels = none := by
  induction sels with
  | nil => rfl
  | cons s rest ih => simp [firstMatch, wait_for_selector_none_of_invisible p s h, ih]

/-- On a page with no visible element, Strategy 3 finds nothing. -/
theorem find_connect_s3_none_of_invisible (p : Page)
    (h : ∀ e ∈ p, e.visible = false) (sels : List String) :
    LinkedIn.find_connect_s3 p sels = none := by
  induction sels with
  | nil => rfl
  | cons s rest ih =>
    have hfind : (query_selector_all p s).find? (fun e => e.visible) = none := by
      refine List.find?_eq_none.mpr fun e he => ?_
      simp [h e (List.mem_filter.mp he).1]
    simp [LinkedIn.find_connect_s3, hfind, ih]

/-- C7: for every locator intent the ordered strategies are tried in order and
the result is the first strategy's currently visible match: an element matched
only by the last Twitter follow selector is still found; a page whose matching
elements are all invisible yields NotFound (and the follow action reports the
not-found failure); the LinkedIn search-connect strategies fall through from
Strategy 1 to Strategy 2; and with every element invisible all three
search-connect strategies yield nothing. -/
theorem locator_fallback :
    (∀ (p : Page) (e : Element),
      wait_for_selector p "div[data-testid=\"follow\"]" = none →
      wait_for_selector p "button[data-testid=\"follow\"]" = none →
      wait_for_selector p "div[role=\"button\"]:has-text(\"Follow\")" = none →
      wait_for_selector p "button:has-text(\"Follow\")" = some e →
      firstMatch p Twitter.follow_selectors = some e)
    ∧ (∀ (p pc : Page) (u : String), (∀ x ∈ p, x.visible = false) →
      (Twitter.follow_user p pc u).1 =
        (false, "Could not find follow button for @" ++ u,
          some ("https://twitter.com/" ++ u)))
    ∧ (∀ (p : Page) (e : Element),
      LinkedIn.find_connect_s1 p = none →
      LinkedIn.find_connect_s2 p = some e →
      LinkedIn.find_connect_result_page p = some e)
    ∧ (∀ p : Page, (∀ x ∈ p, x.visible = false) →
      LinkedIn.find_connect_result_page p = none) := by
  refine ⟨fun p e h1 h2 h3 h4 => ?_, fun p pc u h => ?_, fun p e h1 h2 => ?_,
    fun p h => ?_⟩
  · simp [firstMatch, Twitter.follow_selectors, h1, h2, h3, h4]
  · simp [Twitter.follow_user, firstMatch_none_of_invisible p Twitter.follow_selectors h]
  · simp [LinkedIn.find_connect_result_page, h1, h2]
  · have hs1 : LinkedIn.find_connect_s1 p = none := by
      refine List.find?_eq_none.mpr fun e he => ?_
      simp [h e he]
    have hs2 : LinkedIn.find_connect_s2 p = none := by
      refine List.find?_eq_none.mpr fun e he => ?_
      simp [h e (List.mem_filter.mp he).1]
    simp [LinkedIn.find_connect_result_page, hs1, hs2,
      find_connect_s3_none_of_invisible p h]

/-- Witness for C7: a follow control matched only by the last selector is
found; a hidden follow control yields the not-found failure; an aria-only
connect control is found by Strategy 2 after Strategy 1 fails; a hidden page
yields no connect control. -/
theorem locator_fallback_witness :
    firstMatch [followBtnNew] Twitter.follow_selectors = some followBtnNew
    ∧ (Twitter.follow_user [hiddenFollow] [] "bob").1 =
        (false, "Could not find follow button for @bob", some "https://twitter.com/bob")
    ∧ LinkedIn.find_connect_result_page [ariaConnectBtn] = some ariaConnectBtn
    ∧ LinkedIn.find_connect_result_page [hiddenFollow] = none :=
  ⟨locator_fallback.1 [followBtnNew] followBtnNew (by decide) (by decide) (by decide)
      (by decide),
    locator_fallback.2.1 [hiddenFollow] [] "bob" (by decide),
    locator_fallback.2.2.1 [ariaConnectBtn] ariaConnectBtn (by decide) (by decide),
    locator_fallback.2.2.2 [hiddenFollow] (by decide)⟩

/-- The `initialize` trace after a failed Session Store replay. -/
theorem startup_trace (l0 hp : Bool) (file : Option (Option String))
    (env : LinkedIn.LoadEnv) (cred : LinkedIn.CredLogin)
    (hg : (l0 && hp) = false) (hb : LinkedIn.load_session file env l0 = false) :
    (LinkedIn.startup l0 hp file env cred).2 =
      BEvent.setupBrowser :: BEvent.loadSession false ::
        (match LinkedIn.login_result cred with
         | none => [BEvent.login false]
         | some r => [BEvent.login r, BEvent.saveSession]) := by
  cases cred <;> simp [LinkedIn.startup, hg, hb, LinkedIn.login_result]

/-- C6: whenever credential login runs during `initialize` (LinkedIn) or
`execute_action` (Twitter), the Session Store replay was attempted first and
did not yield the logged-in state; a successful credential login is always
followed by a session save. -/
theorem replay_before_login :
    (∀ (l0 hp : Bool) (file : Option (Option String)) (env : LinkedIn.LoadEnv)
      (cred : LinkedIn.CredLogin) (r : Bool),
      BEvent.login r ∈ (LinkedIn.startup l0 hp file env cred).2 →
      LinkedIn.load_session file env l0 = false
      ∧ ∃ rest, (LinkedIn.startup l0 hp file env cred).2 =
          BEvent.setupBrowser :: BEvent.loadSession false :: rest
          ∧ BEvent.login r ∈ rest)
    ∧ (∀ (l0 hp : Bool) (file : Option (Option String)) (env : LinkedIn.LoadEnv)
      (cred : LinkedIn.CredLogin),
      BEvent.login true ∈ (LinkedIn.startup l0 hp file env cred).2 →
      (LinkedIn.startup l0 hp file env cred).2 =
        [BEvent.setupBrowser, BEvent.loadSession false, BEvent.login true,
          BEvent.saveSession])
    ∧ (∀ (l0 hp : Bool) (file : Option (Option String)) (env : LinkedIn.LoadEnv)
      (cred : LinkedIn.CredLogin),
      (l0 && hp) = false →
      BEvent.loadSession (LinkedIn.load_session file env l0) ∈
        (LinkedIn.startup l0 hp file env cred).2)
    ∧ (∀ ro c l r : Bool,
      BEvent.login r ∈ (Twitter.ensure_logged_in ro c l).2 → ro = false)
    ∧ (∀ ro c l : Bool,
      BEvent.login true ∈ (Twitter.ensure_logged_in ro c l).2 →
      (Twitter.ensure_logged_in ro c l).2 =
        [BEvent.loadSession false, BEvent.login true, BEvent.saveSession]) := by
  refine ⟨fun l0 hp file env cred r hmem => ?_, fun l0 hp file env cred hmem => ?_,
    fun l0 hp file env cred hg => ?_, fun ro c l r hmem => ?_, fun ro c l hmem => ?_⟩
  · cases hg : (l0 && hp) with
    | true => simp [LinkedIn.startup, hg] at hmem
    | false =>
      cases hb : LinkedIn.load_session file env l0 with
      | true => simp [LinkedIn.startup, hg, hb] at hmem
      | false =>
        refine ⟨rfl, ?_⟩
        have htr := startup_trace l0 hp file env cred hg hb
        rw [htr] at hmem ⊢
        simp only [List.mem_cons] at hmem
        rcases hmem with h | h | h
        · exact absurd h (by simp)
        · exact absurd h (by simp)
        · exact ⟨_, rfl, h⟩
  · cases hg : (l0 && hp) with
    | true => simp [LinkedIn.startup, hg] at hmem
    | false =>
      cases hb : LinkedIn.load_session file env l0 with
      | true => simp [LinkedIn.startup, hg, hb] at hmem
      | false =>
        cases cred <;> simp [LinkedIn.startup, hg, hb, LinkedIn.login_result] at hmem ⊢
  · cases hb : LinkedIn.load_session file env l0 <;>
      cases cred <;> simp [LinkedIn.startup, hg, hb, LinkedIn.login_result]
  · cases ro with
    | true => simp [Twitter.ensure_logged_in] at hmem
    | false => rfl
  · cases ro with
    | true => simp [Twitter.ensure_logged_in] at hmem
    | false =>
      cases c with
      | false => simp [Twitter.ensure_logged_in] at hmem
      | true =>
        cases l with
        | false => simp [Twitter.ensure_logged_in] at hmem
        | true => rfl

/-- Witness for C6 at concrete failed-replay runs of both workers. -/
theorem replay_before_login_witness :
    LinkedIn.load_session none {} false = false
    ∧ (LinkedIn.startup false false none {} LinkedIn.CredLogin.reachedFeed).2 =
        [BEvent.setupBrowser, BEvent.loadSession false, BEvent.login true,
          BEvent.saveSession]
    ∧ (Twitter.ensure_logged_in false true true).2 =
        [BEvent.loadSession false, BEvent.login true, BEvent.saveSession] :=
  ⟨(replay_before_login.1 false false none {} LinkedIn.CredLogin.reachedFeed true
      (by decide)).1,
    replay_before_login.2.1 false false none {} LinkedIn.CredLogin.reachedFeed (by decide),
    replay_before_login.2.2.2.2 false true true (by decide)⟩

/-- C3 counterexample: in the LinkedIn search flow, clicking the Connect
control and then finding no confirmation modal returns success immediately —
no post-condition element is observed after the last click, so clicking alone
does yield a success result. -/
theorem click_alone_yields_success :
    (LinkedIn.add_by_search "https://www.linkedin.com/feed/" [searchBox]
        [resultLink, connectBtn] [] [] "John Doe").1 =
      (true, "Connection request sent (no modal needed)",
        some "https://www.linkedin.com/in/jdoe")
    ∧ (LinkedIn.add_by_search "https://www.linkedin.com/feed/" [searchBox]
        [resultLink, connectBtn] [] [] "John Doe").2.any isClick = true
    ∧ observedAfterLastClick
        (LinkedIn.add_by_search "https://www.linkedin.com/feed/" [searchBox]
          [resultLink, connectBtn] [] [] "John Doe").2 = false := by
  refine ⟨by decide, by decide, by decide⟩

/-- C3 amended: the Twitter follow and like executors report success only when
either the already-satisfied state was detected without any click, or the
post-condition element (the unfollow/unlike control) is observed after the
last click; the LinkedIn connect executor, by contrast, can report success
with no post-condition observation after its last click. -/
theorem verify_after_click :
    (∀ (p pc : Page) (u : String),
      (Twitter.follow_user p pc u).1.1 = true →
      (∀ d, BEvent.click d ∉ (Twitter.follow_user p pc u).2)
      ∨ BEvent.observe Twitter.unfollow_sel ∈
          afterLastClick (Twitter.follow_user p pc u).2)
    ∧ (∀ (p pc : Page) (tu : String),
      (Twitter.like_tweet p pc tu).1.1 = true →
      (∀ d, BEvent.click d ∉ (Twitter.like_tweet p pc tu).2)
      ∨ BEvent.observe Twitter.unlike_sel ∈
          afterLastClick (Twitter.like_tweet p pc tu).2)
    ∧ ((LinkedIn.add_by_search "https://www.linkedin.com/feed/" [searchBox]
        [resultLink, connectBtn] [] [] "John Doe").1.1 = true
      ∧ observedAfterLastClick
          (LinkedIn.add_by_search "https://www.linkedin.com/feed/" [searchBox]
            [resultLink, connectBtn] [] [] "John Doe").2 = false) := by
  refine ⟨fun p pc u hs => ?_, fun p pc tu hs => ?_, by decide, by decide⟩
  · cases hf : firstMatch p Twitter.follow_selectors with
    | none => simp [Twitter.follow_user, hf] at hs
    | some btn =>
      by_cases hab : (containsStr btn.text "Following"
          || containsStr btn.text "Unfollow") = true
      · left
        intro d
        simp [Twitter.follow_user, hf, hab]
      · cases hw : wait_for_selector pc Twitter.unfollow_sel with
        | none => simp [Twitter.follow_user, hf, hab, hw] at hs
        | some e =>
          right
          simp [Twitter.follow_user, hf, hab, hw, afterLastClick, isClick]
  · cases hf : firstMatch p Twitter.like_selectors with
    | none => simp [Twitter.like_tweet, hf] at hs
    | some btn =>
      by_cases hal : (query_selector p Twitter.unlike_sel).isSome = true
      · left
        intro d
        simp [Twitter.like_tweet, hf, hal]
      · cases hw : wait_for_selector pc Twitter.unlike_sel with
        | none => simp [Twitter.like_tweet, hf, hal, hw] at hs
        | some e =>
          right
          simp [Twitter.like_tweet, hf, hal, hw, afterLastClick, isClick]

/-- Witness for C3 amended at successful concrete follow and like runs. -/
theorem verify_after_click_witness :
    ((∀ d, BEvent.click d ∉ (Twitter.follow_user [followBtnNew] [unfollowElem] "jack").2)
      ∨ BEvent.observe Twitter.unfollow_sel ∈
          afterLastClick (Twitter.follow_user [followBtnNew] [unfollowElem] "jack").2)
    ∧ ((∀ d, BEvent.click d ∉ (Twitter.like_tweet [likeBtn] [unlikeElem] "t").2)
      ∨ BEvent.observe Twitter.unlike_sel ∈
          afterLastClick (Twitter.like_tweet [likeBtn] [unlikeElem] "t").2) :=
  ⟨verify_after_click.1 [followBtnNew] [unfollowElem] "jack" (by decide),
    verify_after_click.2.1 [likeBtn] [unlikeElem] "t" (by decide)⟩
